import Mathlib

/-!
# Verification of the ai-templates CLI

Shallow embedding of the ai-templates interactive template generator
(TypeScript sources `src/cli.ts` and `src/index.ts` of the repository).

The program state is a filesystem, modelled as a pair of total maps:
file contents at a path, and a directory-existence flag at a path.
Paths are lists of segments (the embedding of `path.join`).
The fs-extra operations used by the program (`pathExists`, `ensureDir`,
`copy` with merge/overwrite semantics, `move` with overwrite) are embedded
as pure transformers on this state; prompt interaction is embedded by
passing the prompt layer's outcome as a function argument.
-/

namespace AiTemplates

/-- A choice offered by an inquirer list prompt: display name and value
(interface `Choice` in `src/index.ts`). -/
structure Choice where
  name : String
  value : String
deriving DecidableEq

/-- `stripPre xs p` returns `some r` when `p = xs ++ r`, i.e. when the path
`xs` is a prefix of the path `p`, and `none` otherwise.  This is the basic
tool for speaking about one path lying inside a directory subtree. -/
def stripPre : List String → List String → Option (List String)
  | [], p => some p
  | _ :: _, [] => none
  | a :: as, b :: bs => if a = b then stripPre as bs else none

/-- A filesystem: file contents by path, and a directory flag by path. -/
structure FS where
  file : List String → Option String
  dir : List String → Bool

/-- fs-extra `pathExists`: a path exists if a file or a directory is there. -/
def FS.pathExists (fs : FS) (p : List String) : Bool :=
  (fs.file p).isSome || fs.dir p

/-- fs-extra `ensureDir` (mkdirp): creates the directory and all its
parents; idempotent, touches no file. -/
def FS.ensureDir (fs : FS) (d : List String) : FS :=
  { file := fs.file
    dir := fun q => if (stripPre q d).isSome then true else fs.dir q }

/-- fs-extra `copy src dst` for a directory tree (the successful case, with
`src` and `dst` distinct trees as in this program): merge into existing
destination content, overwrite a destination file on collision, union
directories. -/
def FS.copy (fs : FS) (src dst : List String) : FS :=
  { file := fun p =>
      match stripPre dst p with
      | some r =>
        match fs.file (src ++ r) with
        | some c => some c
        | none => fs.file p
      | none => fs.file p
    dir := fun p =>
      match stripPre dst p with
      | some r => fs.dir (src ++ r) || fs.dir p
      | none => fs.dir p }

/-- fs-extra `move src dst` with `overwrite: true`: the destination subtree
becomes the source subtree (anything previously at the destination is
replaced), the source subtree is removed, everything else is untouched. -/
def FS.move (fs : FS) (src dst : List String) : FS :=
  { file := fun p =>
      match stripPre dst p with
      | some r => fs.file (src ++ r)
      | none =>
        match stripPre src p with
        | some _ => none
        | none => fs.file p
    dir := fun p =>
      match stripPre dst p with
      | some r => fs.dir (src ++ r)
      | none =>
        match stripPre src p with
        | some _ => false
        | none => fs.dir p }

/-- `AI_OPTIONS` from `src/index.ts`. -/
def AI_OPTIONS : List Choice :=
  [ { name := "Cursor", value := "cursor" },
    { name := "Claude", value := "claude" },
    { name := "Gemini", value := "gemini" } ]

/-- `CATEGORY_OPTIONS` from `src/index.ts`. -/
def CATEGORY_OPTIONS : List Choice :=
  [ { name := "Backend", value := "backend" },
    { name := "Frontend", value := "frontend" },
    { name := "Infrastructure", value := "infra" } ]

/-- `FRAMEWORK_OPTIONS` from `src/index.ts`: the static category to
frameworks table. -/
def FRAMEWORK_OPTIONS : List (String × List Choice) :=
  [ ("backend",
      [ { name := "Fastify", value := "fastify" },
        { name := "NestJS", value := "nestjs" },
        { name := "Koa", value := "koa" },
        { name := "Express", value := "express" },
        { name := "Hapi", value := "hapi" } ]),
    ("frontend",
      [ { name := "React", value := "react" },
        { name := "Vue", value := "vue" },
        { name := "Angular", value := "angular" },
        { name := "Svelte", value := "svelte" },
        { name := "Next.js", value := "nextjs" } ]),
    ("infra",
      [ { name := "Docker", value := "docker" },
        { name := "Kubernetes", value := "kubernetes" },
        { name := "Terraform", value := "terraform" },
        { name := "AWS CDK", value := "aws-cdk" },
        { name := "Pulumi", value := "pulumi" } ]) ]

/-- `FRAMEWORK_OPTIONS[category]` in the TypeScript source: key lookup in
the static table. -/
def lookupFrameworks (category : String) : Option (List Choice) :=
  (FRAMEWORK_OPTIONS.find? (fun e => e.fst == category)).map (fun e => e.snd)

/-- Outcome of one inquirer prompt: the chosen value, the inquirer
TTY/unsupported-environment error, or some other prompt failure. -/
inductive PromptOutcome where
  | ok (value : String)
  | ttyErr (message : String)
  | failure (message : String)
deriving DecidableEq

/-- Errors thrown inside `runCLI`: the inquirer error carrying the
`isTtyError` flag, or an ordinary `Error` with a message. -/
inductive CLIError where
  | tty (message : String)
  | other (message : String)
deriving DecidableEq

/-- Await of one `inquirer.prompt` call presenting `choices`: the prompt
layer's behaviour is the argument `pick`; a thrown outcome becomes an
exception. -/
def promptList (choices : List Choice) (pick : List Choice → PromptOutcome) :
    Except CLIError String :=
  match pick choices with
  | .ok v => .ok v
  | .ttyErr m => .error (.tty m)
  | .failure m => .error (.other m)

/-- `TemplateGenerator.selectFramework` from `src/index.ts`: look the
category up in `FRAMEWORK_OPTIONS`; when absent, throw
`No frameworks available for category: <category>`; otherwise prompt with
exactly the registered framework choices. -/
def selectFramework (category : String) (pick : List Choice → PromptOutcome) :
    Except CLIError String :=
  match lookupFrameworks category with
  | none => .error (.other ("No frameworks available for category: " ++ category))
  | some frameworks => promptList frameworks pick

/-- Rendering of a path for console output: the model of Node's
`path.join` on the segment lists used here.  Segments are joined with `/`
after dropping `.` segments (`path.join` normalizes `./x` to `x`; an empty
join yields `.`); an absolute `process.cwd()` is modelled as a single
absolute first segment such as `/home/user`, on which the join is plain
`/`-concatenation. -/
def pathToString (p : List String) : String :=
  let q := p.filter (fun s => s != ".")
  if q = [] then "." else String.intercalate "/" q

/-- Result of `generateTemplate`: the filesystem afterwards, and the lines
printed to the console. -/
structure GenResult where
  fs : FS
  output : List String

/-- The body of the success path of `generateTemplate` up to and including
`await fs.copy(templatePath, outputDir)`: ensure the destination directory
`.<ai>` under `cwd`, then merge-copy the template tree into it. -/
def copyPhase (fs : FS) (cwd templatesDir : List String)
    (ai category framework : String) : FS :=
  (fs.ensureDir (cwd ++ ["." ++ ai])).copy
    (templatesDir ++ [ai, category, framework]) (cwd ++ ["." ++ ai])

/-- The post-copy step of `generateTemplate`: only when `ai = "cursor"` and
the destination then holds `.cursorrules` at top level, create the `rules`
subdirectory and move `.cursorrules` to `rules/rules.mdc` with overwrite. -/
def migratePhase (fs2 : FS) (cwd : List String) (ai : String) : FS :=
  if ai = "cursor" then
    if fs2.pathExists ((cwd ++ ["." ++ ai]) ++ [".cursorrules"]) then
      (fs2.ensureDir ((cwd ++ ["." ++ ai]) ++ ["rules"])).move
        ((cwd ++ ["." ++ ai]) ++ [".cursorrules"])
        (((cwd ++ ["." ++ ai]) ++ ["rules"]) ++ ["rules.mdc"])
    else fs2
  else fs2

/-- `TemplateGenerator.generateTemplate` from `src/index.ts`.
`cwd` is `process.cwd()` and `templatesDir` the generator's templates root.
Steps, in source order: resolve `templatesDir/ai/category/framework`; when
absent, print the not-found message and return with no filesystem effect;
otherwise run `copyPhase` (ensureDir + copy), then `migratePhase` (the
cursor-only `.cursorrules` migration), and print the success lines naming
the destination directory. -/
def generateTemplate (fs : FS) (cwd templatesDir : List String)
    (ai category framework : String) : GenResult :=
  if fs.pathExists (templatesDir ++ [ai, category, framework]) = false then
    { fs := fs
      output := ["❌ Template not found for " ++ ai ++ "/" ++ category ++ "/" ++ framework] }
  else
    { fs := migratePhase (copyPhase fs cwd templatesDir ai category framework) cwd ai
      output := ["✅ Successfully generated " ++ ai ++ " template for " ++ framework ++ "!",
                 "📁 Files created in: " ++ pathToString (cwd ++ ["." ++ ai])] }

/-- The banner printed by `selectAI`. -/
def bannerLines : List String :=
  ["🚀 AI Templates Generator",
   "Generate templates for your favorite AI tools\n"]

/-- The catch block of `runCLI`: a thrown error with `isTtyError` prints
the distinct unsupported-environment message, anything else prints
`❌ Error: <message>`; in both cases the error is swallowed (not rethrown),
so the promise resolves (`Except.ok`). -/
def handleCLIError (fs : FS) (e : CLIError) : Except CLIError (FS × List String) :=
  match e with
  | .tty _ =>
    .ok (fs, bannerLines ++ ["❌ Prompt couldn\x27t be rendered in the current environment"])
  | .other m =>
    .ok (fs, bannerLines ++ ["❌ Error: " ++ m])

/-- `runCLI` from `src/index.ts`: run the three selections and the
generation inside a try block; any rejection of an awaited step jumps to
the catch (`handleCLIError`), which never rethrows. -/
def runCLI (fs : FS) (cwd templatesDir : List String)
    (aiPick catPick fwPick : List Choice → PromptOutcome) :
    Except CLIError (FS × List String) :=
  match promptList AI_OPTIONS aiPick with
  | .error e => handleCLIError fs e
  | .ok ai =>
    match promptList CATEGORY_OPTIONS catPick with
    | .error e => handleCLIError fs e
    | .ok category =>
      match selectFramework category fwPick with
      | .error e => handleCLIError fs e
      | .ok framework =>
        let gen := generateTemplate fs cwd templatesDir ai category framework
        .ok (gen.fs,
          bannerLines ++
            ["\n🔧 Generating " ++ ai ++ " template for " ++ framework ++ "..."] ++ gen.output)

/-- The `src/cli.ts` entry point: `runCLI().catch(e => { print; exit(1) })`.
The third component is the process exit code: `0` when the `runCLI`
promise resolves, `1` when it rejects. -/
def cliMain (fs : FS) (cwd templatesDir : List String)
    (aiPick catPick fwPick : List Choice → PromptOutcome) :
    FS × List String × Nat :=
  match runCLI fs cwd templatesDir aiPick catPick fwPick with
  | .ok (f, out) => (f, out, 0)
  | .error e =>
    (fs, ["Error: " ++ (match e with | .tty m => m | .other m => m)], 1)

/-- Modelled from the spec: the on-disk template tree.  What is missing:
the repository ships template payload files whose paths are unknown (the
unnamed source files: further claude project-knowledge and CLAUDE.md
documents, command guides for more (category, framework) pairs, and
additional cursor rule files), so the exact set of template directories and
their file lists cannot be reconstructed from the sources.  The spec says
only that a `TemplateDirectory` is "an on-disk directory addressed by the
triple (tool identifier, category identifier, framework identifier),
containing arbitrary files/subdirectories to be copied as-is".  A
filesystem therefore models a template directory existing on disk for a
triple exactly when its directory flag is set at
`templatesDir/tool/category/framework`, with arbitrary content below it. -/
abbrev templateDirOnDisk (fs : FS) (templatesDir : List String)
    (ai category framework : String) : Prop :=
  fs.dir (templatesDir ++ [ai, category, framework]) = true

/-- The directories a template's relative file list induces: the nonempty
proper prefixes of its file paths. -/
def relDirsB (rels : List (List String)) (r : List String) : Bool :=
  decide (r ≠ []) && rels.any (fun s => (stripPre r s).isSome && decide (r ≠ s))

/-- A triple is drawn from the static option tables: the tool is an
`AI_OPTIONS` value, the category a `CATEGORY_OPTIONS` value, and the
framework registered under that category in `FRAMEWORK_OPTIONS`. -/
def validTriple (ai category framework : String) : Bool :=
  AI_OPTIONS.any (fun c => c.value == ai) &&
  CATEGORY_OPTIONS.any (fun c => c.value == category) &&
  (match lookupFrameworks category with
   | some fws => fws.any (fun c => c.value == framework)
   | none => false)

/-- Checker: every category identifier of `CATEGORY_OPTIONS` is a key of
`FRAMEWORK_OPTIONS`. -/
def categoriesHaveFrameworks : Bool :=
  CATEGORY_OPTIONS.all (fun c => (lookupFrameworks c.value).isSome)

/-- Checker: every framework list in `FRAMEWORK_OPTIONS` is nonempty. -/
def frameworkListsNonEmpty : Bool :=
  FRAMEWORK_OPTIONS.all (fun e => decide (e.snd ≠ []))

/-- Checker: no framework identifier occurs under two different categories
of `FRAMEWORK_OPTIONS`. -/
def frameworksDisjointAcrossCategories : Bool :=
  FRAMEWORK_OPTIONS.all (fun e1 =>
    FRAMEWORK_OPTIONS.all (fun e2 =>
      e1.fst == e2.fst ||
      e1.snd.all (fun c1 => e2.snd.all (fun c2 => decide (c1.value ≠ c2.value)))))

/-- Concrete filesystem for the end-to-end scenario of the spec: the
templates root `templates` holds, for (cursor, backend, fastify), a single
file `rules.mdc`; nothing else exists. -/
def fsScenario : FS :=
  { file := fun p =>
      if p = ["templates", "cursor", "backend", "fastify", "rules.mdc"] then
        some "# Fastify Rules"
      else none
    dir := fun p => (stripPre p ["templates", "cursor", "backend", "fastify"]).isSome }

/-- Does the character list start with the pattern `sub`? -/
def listStarts : List Char → List Char → Bool
  | [], _ => true
  | _ :: _, [] => false
  | a :: as, b :: bs => a == b && listStarts as bs

/-- Does the character list contain the pattern `sub` as a contiguous run? -/
def listHas (sub : List Char) : List Char → Bool
  | [] => listStarts sub []
  | b :: bs => listStarts sub (b :: bs) || listHas sub bs

/-- Does the string `s` contain `sub` as a substring? -/
def strHas (s sub : String) : Bool :=
  listHas sub.toList s.toList

/-- Concrete filesystem holding a cursor template (for `backend`/`hapi`)
that ships both a top-level `.cursorrules` file and a `rules/rules.mdc`
file, to exercise the interaction of the copy with the migration. -/
def fsBoth : FS :=
  { file := fun p =>
      if p = ["templates", "cursor", "backend", "hapi", ".cursorrules"] then some "CR"
      else if p = ["templates", "cursor", "backend", "hapi", "rules", "rules.mdc"] then some "RM"
      else none
    dir := fun p => (stripPre p ["templates", "cursor", "backend", "hapi", "rules"]).isSome }

/-- Concrete filesystem holding a cursor template for (backend, fastify)
consisting of one file `rules/code-style.mdc` (the layout of the named
repository tree for that triple); the rest of the filesystem is empty. -/
def fsFastify : FS :=
  { file := fun p =>
      match stripPre ["templates", "cursor", "backend", "fastify"] p with
      | some r => if r = ["rules", "code-style.mdc"] then some "# Code Style" else none
      | none => none
    dir := fun p =>
      (stripPre p ["templates", "cursor", "backend", "fastify"]).isSome ||
        (match stripPre ["templates", "cursor", "backend", "fastify"] p with
         | some r => relDirsB [["rules", "code-style.mdc"]] r
         | none => false) }

/-- A prompt layer that always fails with the inquirer TTY error. -/
def ttyPickSample : List Choice → PromptOutcome :=
  fun _ => PromptOutcome.ttyErr "stdin is not a TTY"

/-- A prompt layer that always answers with a fixed value. -/
def okPickSample : List Choice → PromptOutcome :=
  fun _ => PromptOutcome.ok "fastify"

/-- The empty filesystem. -/
def emptyFS : FS :=
  { file := fun _ => none, dir := fun _ => false }

/-- Whether a promise resolved: `true` on `Except.ok`. -/
def exceptResolves {ε α : Type} : Except ε α → Bool
  | .ok _ => true
  | .error _ => false

/-- The framework choices registered for `backend` in `FRAMEWORK_OPTIONS`. -/
def backendFrameworks : List Choice :=
  [ { name := "Fastify", value := "fastify" },
    { name := "NestJS", value := "nestjs" },
    { name := "Koa", value := "koa" },
    { name := "Express", value := "express" },
    { name := "Hapi", value := "hapi" } ]

/-- Concrete filesystem holding a cursor template (for `backend`/`koa`)
that consists of one legacy top-level `.cursorrules` file. -/
def fsLegacy : FS :=
  { file := fun p =>
      if p = ["templates", "cursor", "backend", "koa", ".cursorrules"] then some "LEGACY"
      else none
    dir := fun p => (stripPre p ["templates", "cursor", "backend", "koa"]).isSome }

/-- Concrete filesystem with an empty cursor template directory for
(backend, fastify) and a pre-existing `.cursorrules` file inside the user's
destination directory `home/.cursor`. -/
def fsPre : FS :=
  { file := fun p =>
      if p = ["home", ".cursor", ".cursorrules"] then some "OLDRULES" else none
    dir := fun p => (stripPre p ["templates", "cursor", "backend", "fastify"]).isSome }

/-- Concrete filesystem holding a claude template (frontend/react) that
contains a `.cursorrules` file, to exercise the no-migration path for a
tool other than cursor. -/
def fsClaudeCr : FS :=
  { file := fun p =>
      if p = ["templates", "claude", "frontend", "react", ".cursorrules"] then some "CRDATA"
      else none
    dir := fun p => (stripPre p ["templates", "claude", "frontend", "react"]).isSome }

/-! ## Helper lemmas about `stripPre` -/

theorem stripPre_append (xs ys : List String) : stripPre xs (xs ++ ys) = some ys := by
  induction xs with
  | nil => rfl
  | cons a as ih => simp [stripPre, ih]

theorem stripPre_self (xs : List String) : stripPre xs xs = some [] := by
  have h := stripPre_append xs []
  simpa using h

theorem stripPre_append_both (xs a b : List String) :
    stripPre (xs ++ a) (xs ++ b) = stripPre a b := by
  induction xs with
  | nil => rfl
  | cons x xsr ih => simp [stripPre, ih]

theorem append_path_cancel {xs a b : List String} (h : xs ++ a = xs ++ b) : a = b :=
  List.append_cancel_left h

/-! ## Pointwise evaluation lemmas for the filesystem operations -/

theorem ensureDir_file (fs : FS) (d p : List String) :
    (fs.ensureDir d).file p = fs.file p := rfl

theorem ensureDir_dir (fs : FS) (d p : List String) :
    (fs.ensureDir d).dir p = if (stripPre p d).isSome then true else fs.dir p := rfl

theorem copy_file (fs : FS) (src dst p : List String) :
    (fs.copy src dst).file p =
      match stripPre dst p with
      | some r =>
        match fs.file (src ++ r) with
        | some c => some c
        | none => fs.file p
      | none => fs.file p := rfl

theorem move_file (fs : FS) (src dst p : List String) :
    (fs.move src dst).file p =
      match stripPre dst p with
      | some r => fs.file (src ++ r)
      | none =>
        match stripPre src p with
        | some _ => none
        | none => fs.file p := rfl

theorem move_dir (fs : FS) (src dst p : List String) :
    (fs.move src dst).dir p =
      match stripPre dst p with
      | some r => fs.dir (src ++ r)
      | none =>
        match stripPre src p with
        | some _ => false
        | none => fs.dir p := rfl

/-! ## Branch lemmas for `generateTemplate` -/

theorem generateTemplate_notFound (fs : FS) (cwd templatesDir : List String)
    (ai category framework : String)
    (h : fs.pathExists (templatesDir ++ [ai, category, framework]) = false) :
    generateTemplate fs cwd templatesDir ai category framework =
      { fs := fs
        output := ["❌ Template not found for " ++ ai ++ "/" ++ category ++ "/" ++ framework] } := by
  simp [generateTemplate, h]

theorem generateTemplate_found (fs : FS) (cwd templatesDir : List String)
    (ai category framework : String)
    (h : fs.pathExists (templatesDir ++ [ai, category, framework]) = true) :
    generateTemplate fs cwd templatesDir ai category framework =
      { fs := migratePhase (copyPhase fs cwd templatesDir ai category framework) cwd ai
        output := ["✅ Successfully generated " ++ ai ++ " template for " ++ framework ++ "!",
                   "📁 Files created in: " ++ pathToString (cwd ++ ["." ++ ai])] } := by
  simp [generateTemplate, h]

/-! ## Claim theorems -/

/-- C2: when the resolved source template directory
`templatesDir/ai/category/framework` does not exist, `generateTemplate`
prints the `Template not found` message and returns with no filesystem
side effect at all: the resulting filesystem is the input filesystem
unchanged (in particular `.<ai>` is not created when it did not exist). -/
theorem claim_C2 (fs : FS) (cwd templatesDir : List String)
    (ai category framework : String)
    (h : fs.pathExists (templatesDir ++ [ai, category, framework]) = false) :
    (generateTemplate fs cwd templatesDir ai category framework).fs = fs ∧
    (generateTemplate fs cwd templatesDir ai category framework).output =
      ["❌ Template not found for " ++ ai ++ "/" ++ category ++ "/" ++ framework] := by
  rw [generateTemplate_notFound fs cwd templatesDir ai category framework h]
  exact ⟨rfl, rfl⟩

/-- Witness for C2: the (gemini, backend, express) template directory is
absent from the empty filesystem, and generation leaves the filesystem
unchanged and prints the not-found message. -/
theorem claim_C2_witness :
    emptyFS.pathExists (["templates"] ++ ["gemini", "backend", "express"]) = false ∧
    ((generateTemplate emptyFS ["home"] ["templates"] "gemini" "backend" "express").fs = emptyFS ∧
     (generateTemplate emptyFS ["home"] ["templates"] "gemini" "backend" "express").output =
       ["❌ Template not found for " ++ "gemini" ++ "/" ++ "backend" ++ "/" ++ "express"]) :=
  ⟨rfl, claim_C2 emptyFS ["home"] ["templates"] "gemini" "backend" "express" rfl⟩

/-- When the destination of a cursor run holds a top-level `.cursorrules`
file after the copy, `migratePhase` removes it, writes its content to
`rules/rules.mdc`, and ensures the `rules` directory. -/
theorem migrate_moves (fs2 : FS) (cwd : List String) (d : String)
    (hpost : fs2.file ((cwd ++ ["." ++ "cursor"]) ++ [".cursorrules"]) = some d) :
    (migratePhase fs2 cwd "cursor").file ((cwd ++ ["." ++ "cursor"]) ++ [".cursorrules"]) = none ∧
    (migratePhase fs2 cwd "cursor").file ((cwd ++ ["." ++ "cursor"]) ++ ["rules", "rules.mdc"]) = some d ∧
    (migratePhase fs2 cwd "cursor").dir ((cwd ++ ["." ++ "cursor"]) ++ ["rules"]) = true := by
  have hc : fs2.pathExists ((cwd ++ ["." ++ "cursor"]) ++ [".cursorrules"]) = true := by
    unfold FS.pathExists
    rw [hpost]
    rfl
  have hnp : ((cwd ++ ["." ++ "cursor"]) ++ ["rules"]) ++ ["rules.mdc"] =
      (cwd ++ ["." ++ "cursor"]) ++ ["rules", "rules.mdc"] := by
    rw [List.append_assoc]
    rfl
  unfold migratePhase
  rw [if_pos rfl, hc]
  simp only [if_pos]
  refine ⟨?_, ?_, ?_⟩
  · rw [move_file, hnp, stripPre_append_both]
    have h1 : stripPre ["rules", "rules.mdc"] [".cursorrules"] = none := by decide
    rw [h1, stripPre_self]
  · rw [move_file, hnp, stripPre_self]
    simp only [List.append_nil, ensureDir_file]
    exact hpost
  · rw [move_dir, hnp]
    have h1 : stripPre ((cwd ++ ["." ++ "cursor"]) ++ ["rules", "rules.mdc"])
        ((cwd ++ ["." ++ "cursor"]) ++ ["rules"]) = none := by
      rw [stripPre_append_both]; decide
    have h2 : stripPre ((cwd ++ ["." ++ "cursor"]) ++ [".cursorrules"])
        ((cwd ++ ["." ++ "cursor"]) ++ ["rules"]) = none := by
      rw [stripPre_append_both]; decide
    rw [h1, h2, ensureDir_dir, stripPre_self]
    rfl

/-- C3: for a cursor run whose copy succeeds and whose destination then
holds a top-level `.cursorrules` file with content `d`, after
`generateTemplate` completes `.cursor/.cursorrules` no longer exists,
`.cursor/rules/rules.mdc` exists with content `d` (any pre-existing file
there overwritten), and the `rules` subdirectory exists. -/
theorem claim_C3 (fs : FS) (cwd templatesDir : List String)
    (category framework : String) (d : String)
    (hex : fs.pathExists (templatesDir ++ ["cursor", category, framework]) = true)
    (hpost : (copyPhase fs cwd templatesDir "cursor" category framework).file
        ((cwd ++ ["." ++ "cursor"]) ++ [".cursorrules"]) = some d) :
    (generateTemplate fs cwd templatesDir "cursor" category framework).fs.file
        ((cwd ++ ["." ++ "cursor"]) ++ [".cursorrules"]) = none ∧
    (generateTemplate fs cwd templatesDir "cursor" category framework).fs.file
        ((cwd ++ ["." ++ "cursor"]) ++ ["rules", "rules.mdc"]) = some d ∧
    (generateTemplate fs cwd templatesDir "cursor" category framework).fs.dir
        ((cwd ++ ["." ++ "cursor"]) ++ ["rules"]) = true := by
  rw [generateTemplate_found fs cwd templatesDir "cursor" category framework hex]
  exact migrate_moves (copyPhase fs cwd templatesDir "cursor" category framework) cwd d hpost

/-- Witness for C3: generating the cursor/backend/koa template, which
consists of one `.cursorrules` file, migrates it to `rules/rules.mdc`. -/
theorem claim_C3_witness :
    fsLegacy.pathExists (["templates"] ++ ["cursor", "backend", "koa"]) = true ∧
    (copyPhase fsLegacy ["home"] ["templates"] "cursor" "backend" "koa").file
        ((["home"] ++ ["." ++ "cursor"]) ++ [".cursorrules"]) = some "LEGACY" ∧
    ((generateTemplate fsLegacy ["home"] ["templates"] "cursor" "backend" "koa").fs.file
        ((["home"] ++ ["." ++ "cursor"]) ++ [".cursorrules"]) = none ∧
     (generateTemplate fsLegacy ["home"] ["templates"] "cursor" "backend" "koa").fs.file
        ((["home"] ++ ["." ++ "cursor"]) ++ ["rules", "rules.mdc"]) = some "LEGACY" ∧
     (generateTemplate fsLegacy ["home"] ["templates"] "cursor" "backend" "koa").fs.dir
        ((["home"] ++ ["." ++ "cursor"]) ++ ["rules"]) = true) :=
  ⟨by decide, by decide,
   claim_C3 fsLegacy ["home"] ["templates"] "backend" "koa" "LEGACY" (by decide) (by decide)⟩

/-- C7: for a tool other than cursor no migration occurs: a `.cursorrules`
file of the template is copied and stays at `.<tool>/.cursorrules` with its
content, and when the template has no `rules/rules.mdc` the destination's
`rules/rules.mdc` is left exactly as it was before the run. -/
theorem claim_C7 (fs : FS) (cwd templatesDir : List String)
    (ai category framework : String) (d : String)
    (hai : ai ≠ "cursor")
    (hex : fs.pathExists (templatesDir ++ [ai, category, framework]) = true)
    (hcr : fs.file (templatesDir ++ [ai, category, framework] ++ [".cursorrules"]) = some d)
    (hnr : fs.file (templatesDir ++ [ai, category, framework] ++ ["rules", "rules.mdc"]) = none) :
    (generateTemplate fs cwd templatesDir ai category framework).fs.file
        ((cwd ++ ["." ++ ai]) ++ [".cursorrules"]) = some d ∧
    (generateTemplate fs cwd templatesDir ai category framework).fs.file
        ((cwd ++ ["." ++ ai]) ++ ["rules", "rules.mdc"]) =
      fs.file ((cwd ++ ["." ++ ai]) ++ ["rules", "rules.mdc"]) := by
  rw [generateTemplate_found fs cwd templatesDir ai category framework hex]
  have hm : migratePhase (copyPhase fs cwd templatesDir ai category framework) cwd ai =
      copyPhase fs cwd templatesDir ai category framework := by
    simp [migratePhase, hai]
  constructor
  · show (migratePhase _ cwd ai).file _ = some d
    rw [hm]
    unfold copyPhase
    rw [copy_file, stripPre_append]
    simp only [ensureDir_file, hcr]
  · show (migratePhase _ cwd ai).file _ = _
    rw [hm]
    unfold copyPhase
    rw [copy_file, stripPre_append]
    simp only [ensureDir_file, hnr]

/-- Witness for C7: the claude/frontend/react template containing a
`.cursorrules` file is copied to `.claude/.cursorrules` and left there. -/
theorem claim_C7_witness :
    ("claude" ≠ "cursor") ∧
    ((generateTemplate fsClaudeCr ["home"] ["templates"] "claude" "frontend" "react").fs.file
        ((["home"] ++ ["." ++ "claude"]) ++ [".cursorrules"]) = some "CRDATA" ∧
     (generateTemplate fsClaudeCr ["home"] ["templates"] "claude" "frontend" "react").fs.file
        ((["home"] ++ ["." ++ "claude"]) ++ ["rules", "rules.mdc"]) =
       fsClaudeCr.file ((["home"] ++ ["." ++ "claude"]) ++ ["rules", "rules.mdc"])) :=
  ⟨by decide,
   claim_C7 fsClaudeCr ["home"] ["templates"] "claude" "frontend" "react" "CRDATA"
     (by decide) (by decide) (by decide) (by decide)⟩

/-- C10: for tool cursor the migration is driven by the destination state
after copying, not by the template content: when the destination already
held a top-level `.cursorrules` (content `d`) before the run and the
template has no `.cursorrules`, a successful run still moves the
pre-existing file to `.cursor/rules/rules.mdc` and removes
`.cursor/.cursorrules`. -/
theorem claim_C10 (fs : FS) (cwd templatesDir : List String)
    (category framework : String) (d : String)
    (hex : fs.pathExists (templatesDir ++ ["cursor", category, framework]) = true)
    (hpre : fs.file ((cwd ++ ["." ++ "cursor"]) ++ [".cursorrules"]) = some d)
    (hnosrc : fs.file (templatesDir ++ ["cursor", category, framework] ++ [".cursorrules"]) = none) :
    (generateTemplate fs cwd templatesDir "cursor" category framework).fs.file
        ((cwd ++ ["." ++ "cursor"]) ++ ["rules", "rules.mdc"]) = some d ∧
    (generateTemplate fs cwd templatesDir "cursor" category framework).fs.file
        ((cwd ++ ["." ++ "cursor"]) ++ [".cursorrules"]) = none := by
  have hpost : (copyPhase fs cwd templatesDir "cursor" category framework).file
      ((cwd ++ ["." ++ "cursor"]) ++ [".cursorrules"]) = some d := by
    unfold copyPhase
    rw [copy_file, stripPre_append]
    simp only [ensureDir_file, hnosrc]
    exact hpre
  rw [generateTemplate_found fs cwd templatesDir "cursor" category framework hex]
  have h := migrate_moves (copyPhase fs cwd templatesDir "cursor" category framework) cwd d hpost
  exact ⟨h.2.1, h.1⟩

/-- Witness for C10: an empty cursor/backend/fastify template plus a
pre-existing `home/.cursor/.cursorrules` file still yields the migration. -/
theorem claim_C10_witness :
    fsPre.pathExists (["templates"] ++ ["cursor", "backend", "fastify"]) = true ∧
    fsPre.file ((["home"] ++ ["." ++ "cursor"]) ++ [".cursorrules"]) = some "OLDRULES" ∧
    ((generateTemplate fsPre ["home"] ["templates"] "cursor" "backend" "fastify").fs.file
        ((["home"] ++ ["." ++ "cursor"]) ++ ["rules", "rules.mdc"]) = some "OLDRULES" ∧
     (generateTemplate fsPre ["home"] ["templates"] "cursor" "backend" "fastify").fs.file
        ((["home"] ++ ["." ++ "cursor"]) ++ [".cursorrules"]) = none) :=
  ⟨by decide, by decide,
   claim_C10 fsPre ["home"] ["templates"] "backend" "fastify" "OLDRULES"
     (by decide) (by decide) (by decide)⟩

/-- C5: `selectFramework category` throws the configuration error exactly
when `category` is not a key of `FRAMEWORK_OPTIONS` (the error is its
outcome for every prompt layer precisely in that case), and when the
category is a key with registered list `fws`, the prompt presented is
exactly the prompt over `fws` — the choices offered are the registered
framework set of that category and nothing else. -/
theorem claim_C5 (category : String) :
    ((∀ pick, selectFramework category pick =
        Except.error (CLIError.other ("No frameworks available for category: " ++ category))) ↔
      lookupFrameworks category = none) ∧
    (∀ fws pick, lookupFrameworks category = some fws →
      selectFramework category pick = promptList fws pick) := by
  constructor
  · constructor
    · intro h
      cases hl : lookupFrameworks category with
      | none => rfl
      | some fws =>
        have h2 := h okPickSample
        simp [selectFramework, hl, promptList, okPickSample] at h2
    · intro hl pick
      simp [selectFramework, hl]
  · intro fws pick hl
    simp [selectFramework, hl]

/-- Witness for C5: `backend` is a key of the table and the prompt offered
for it is exactly the prompt over the registered backend frameworks. -/
theorem claim_C5_witness :
    lookupFrameworks "backend" = some backendFrameworks ∧
    selectFramework "backend" okPickSample = promptList backendFrameworks okPickSample :=
  ⟨by decide, (claim_C5 "backend").2 backendFrameworks okPickSample (by decide)⟩

/-- Every run of `runCLI` resolves: the try/catch of `runCLI` converts
every thrown error, the inquirer TTY error included, into a printed
message and a normal return. -/
theorem runCLI_resolves (fs : FS) (cwd templatesDir : List String)
    (aiPick catPick fwPick : List Choice → PromptOutcome) :
    exceptResolves (runCLI fs cwd templatesDir aiPick catPick fwPick) = true := by
  rcases h1 : promptList AI_OPTIONS aiPick with e | ai
  · cases e <;> simp [runCLI, h1, handleCLIError, exceptResolves]
  · rcases h2 : promptList CATEGORY_OPTIONS catPick with e | category
    · cases e <;> simp [runCLI, h1, h2, handleCLIError, exceptResolves]
    · rcases h3 : selectFramework category fwPick with e | framework
      · cases e <;> simp [runCLI, h1, h2, h3, handleCLIError, exceptResolves]
      · simp [runCLI, h1, h2, h3, exceptResolves]

/-- C4 counterexample: at a concrete input where the prompt layer cannot
render (the first prompt yields the inquirer TTY error), the process exit
code is `0`, not non-zero — the unsupported-environment error does not
propagate out of `runCLI` to the entry point's `process.exit(1)` path. -/
theorem claim_C4_counterexample :
    ttyPickSample AI_OPTIONS = PromptOutcome.ttyErr "stdin is not a TTY" ∧
    (cliMain emptyFS ["."] ["templates"] ttyPickSample ttyPickSample ttyPickSample).2.2 = 0 :=
  ⟨rfl, rfl⟩

/-- C4 (amended): the process always exits `0`: `runCLI` catches every
error of the selection and generation phases — including the
unsupported-environment (TTY) error, for which it prints its distinct
message — and rethrows nothing, so the entry point's non-zero exit path is
unreachable. -/
theorem claim_C4 (fs : FS) (cwd templatesDir : List String)
    (aiPick catPick fwPick : List Choice → PromptOutcome) :
    (cliMain fs cwd templatesDir aiPick catPick fwPick).2.2 = 0 ∧
    (∀ m, aiPick AI_OPTIONS = PromptOutcome.ttyErr m →
      "❌ Prompt couldn\x27t be rendered in the current environment" ∈
        (cliMain fs cwd templatesDir aiPick catPick fwPick).2.1) := by
  constructor
  · cases hr : runCLI fs cwd templatesDir aiPick catPick fwPick with
    | error e =>
      have h := runCLI_resolves fs cwd templatesDir aiPick catPick fwPick
      rw [hr] at h
      simp [exceptResolves] at h
    | ok r =>
      obtain ⟨f, out⟩ := r
      simp [cliMain, hr]
  · intro m hm
    have hp : promptList AI_OPTIONS aiPick = Except.error (CLIError.tty m) := by
      simp [promptList, hm]
    simp [cliMain, runCLI, hp, handleCLIError, bannerLines]

/-- Witness for C4 (amended): at the concrete TTY-failing prompt layer the
exit code is `0` and the distinct message is printed. -/
theorem claim_C4_witness :
    (cliMain emptyFS ["home"] ["templates"] ttyPickSample ttyPickSample ttyPickSample).2.2 = 0 ∧
    "❌ Prompt couldn\x27t be rendered in the current environment" ∈
      (cliMain emptyFS ["home"] ["templates"] ttyPickSample ttyPickSample ttyPickSample).2.1 :=
  ⟨(claim_C4 emptyFS ["home"] ["templates"] ttyPickSample ttyPickSample ttyPickSample).1,
   (claim_C4 emptyFS ["home"] ["templates"] ttyPickSample ttyPickSample ttyPickSample).2
     "stdin is not a TTY" rfl⟩

/-- When the relative path `r` extends neither `.cursorrules` nor
`rules/rules.mdc`, `migratePhase` leaves the destination file at
`.<ai>/r` untouched. -/
theorem migrate_file_away (fs2 : FS) (cwd : List String) (ai : String) (r : List String)
    (h1 : stripPre [".cursorrules"] r = none)
    (h2 : stripPre ["rules", "rules.mdc"] r = none) :
    (migratePhase fs2 cwd ai).file ((cwd ++ ["." ++ ai]) ++ r) =
      fs2.file ((cwd ++ ["." ++ ai]) ++ r) := by
  unfold migratePhase
  split
  · split
    · rw [move_file]
      have hs1 : stripPre (((cwd ++ ["." ++ ai]) ++ ["rules"]) ++ ["rules.mdc"])
          ((cwd ++ ["." ++ ai]) ++ r) = none := by
        rw [List.append_assoc (cwd ++ ["." ++ ai]) ["rules"] ["rules.mdc"],
          stripPre_append_both]
        exact h2
      have hs2 : stripPre ((cwd ++ ["." ++ ai]) ++ [".cursorrules"])
          ((cwd ++ ["." ++ ai]) ++ r) = none := by
        rw [stripPre_append_both]
        exact h1
      rw [hs1, hs2]
      rfl
    · rfl
  · rfl

/-- The filesystem value of `copyPhase` at a destination point `.<ai>/r`:
the template file at `r` when present, the prior value otherwise. -/
theorem copyPhase_file_at (fs : FS) (cwd templatesDir : List String)
    (ai category framework : String) (r : List String) :
    (copyPhase fs cwd templatesDir ai category framework).file ((cwd ++ ["." ++ ai]) ++ r) =
      match fs.file (templatesDir ++ [ai, category, framework] ++ r) with
      | some c => some c
      | none => fs.file ((cwd ++ ["." ++ ai]) ++ r) := by
  unfold copyPhase
  rw [copy_file, stripPre_append]
  rfl

/-- `migratePhase` is the identity for a tool other than cursor. -/
theorem migratePhase_noncursor (f2 : FS) (cwd : List String) (ai : String)
    (h : ai ≠ "cursor") : migratePhase f2 cwd ai = f2 := by
  unfold migratePhase
  rw [if_neg h]

/-- C1 counterexample: a triple from the static tables whose template
directory exists on disk and ships a top-level `.cursorrules` and a
`rules/rules.mdc` (the spec allows arbitrary template content, and the
exact shipped tree is not reconstructible from the sources): after a
successful run the destination holds neither file with its template
content at the identical relative path — `.cursorrules` was relocated and
`rules/rules.mdc` overwritten by the cursor migration — refuting the
claimed exact containment. -/
theorem claim_C1_counterexample :
    validTriple "cursor" "backend" "hapi" = true ∧
    fsBoth.file ((["templates"] ++ ["cursor", "backend", "hapi"]) ++ [".cursorrules"]) =
      some "CR" ∧
    fsBoth.file ((["templates"] ++ ["cursor", "backend", "hapi"]) ++ ["rules", "rules.mdc"]) =
      some "RM" ∧
    (generateTemplate fsBoth ["home"] ["templates"] "cursor" "backend" "hapi").fs.file
      ((["home"] ++ ["." ++ "cursor"]) ++ [".cursorrules"]) = none ∧
    (generateTemplate fsBoth ["home"] ["templates"] "cursor" "backend" "hapi").fs.file
      ((["home"] ++ ["." ++ "cursor"]) ++ ["rules", "rules.mdc"]) = some "CR" := by
  refine ⟨by decide, by decide, by decide, by decide, by decide⟩

/-- C1 (amended): for every triple drawn from the static option tables
whose template directory exists on disk (arbitrary template content, the
destination holding arbitrary prior content), generation succeeds and the
destination `.<ai>` under `cwd` afterwards contains every file of the
template at the identical relative path with identical content, except the
two paths the cursor migration affects: when the tool is cursor, a
top-level `.cursorrules` is relocated to `rules/rules.mdc` and a template
file at or below either path may be displaced; every file at any other
relative path is contained exactly. -/
theorem claim_C1 (fs : FS) (cwd templatesDir : List String)
    (ai category framework : String)
    (hval : validTriple ai category framework = true)
    (hdir : templateDirOnDisk fs templatesDir ai category framework) :
    (generateTemplate fs cwd templatesDir ai category framework).output =
      ["✅ Successfully generated " ++ ai ++ " template for " ++ framework ++ "!",
       "📁 Files created in: " ++ pathToString (cwd ++ ["." ++ ai])] ∧
    ∀ r c, fs.file (templatesDir ++ [ai, category, framework] ++ r) = some c →
      (ai = "cursor" →
        stripPre [".cursorrules"] r = none ∧ stripPre ["rules", "rules.mdc"] r = none) →
      (generateTemplate fs cwd templatesDir ai category framework).fs.file
        ((cwd ++ ["." ++ ai]) ++ r) = some c := by
  have hdt : fs.dir (templatesDir ++ [ai, category, framework]) = true := hdir
  have hex : fs.pathExists (templatesDir ++ [ai, category, framework]) = true := by
    unfold FS.pathExists
    rw [hdt]
    simp
  rw [generateTemplate_found fs cwd templatesDir ai category framework hex]
  refine ⟨rfl, ?_⟩
  intro r c hv hcond
  show (migratePhase _ cwd ai).file _ = _
  by_cases hai : ai = "cursor"
  · obtain ⟨h1, h2⟩ := hcond hai
    rw [migrate_file_away (copyPhase fs cwd templatesDir ai category framework) cwd ai r h1 h2,
      copyPhase_file_at, hv]
  · rw [migratePhase_noncursor (copyPhase fs cwd templatesDir ai category framework) cwd ai hai,
      copyPhase_file_at, hv]

/-- Witness for C1: a cursor/backend/fastify template holding one file
`rules/code-style.mdc` (the layout of the named repository tree for that
triple) is fully materialized under `home/.cursor`. -/
theorem claim_C1_witness :
    validTriple "cursor" "backend" "fastify" = true ∧
    templateDirOnDisk fsFastify ["templates"] "cursor" "backend" "fastify" ∧
    (generateTemplate fsFastify ["home"] ["templates"] "cursor" "backend" "fastify").output =
      ["✅ Successfully generated " ++ "cursor" ++ " template for " ++ "fastify" ++ "!",
       "📁 Files created in: " ++ pathToString (["home"] ++ ["." ++ "cursor"])] ∧
    (generateTemplate fsFastify ["home"] ["templates"] "cursor" "backend" "fastify").fs.file
      ((["home"] ++ ["." ++ "cursor"]) ++ ["rules", "code-style.mdc"]) = some "# Code Style" :=
  ⟨by decide, by decide,
   (claim_C1 fsFastify ["home"] ["templates"] "cursor" "backend" "fastify"
     (by decide) (by decide)).1,
   (claim_C1 fsFastify ["home"] ["templates"] "cursor" "backend" "fastify"
     (by decide) (by decide)).2 ["rules", "code-style.mdc"] "# Code Style"
     (by decide) (fun _ => ⟨by decide, by decide⟩)⟩

/-- C8: the static option tables are mutually consistent: every category
identifier of `CATEGORY_OPTIONS` is a key of `FRAMEWORK_OPTIONS`, every
framework list of `FRAMEWORK_OPTIONS` is nonempty, and no framework value
occurs under two different categories. -/
theorem claim_C8 :
    categoriesHaveFrameworks = true ∧
    frameworkListsNonEmpty = true ∧
    frameworksDisjointAcrossCategories = true := by
  refine ⟨?_, ?_, ?_⟩ <;> decide

/-- C9 counterexample: the program prints
`Files created in: <path.join(process.cwd(), ".cursor")>`, and
`process.cwd()` is an absolute path (here `/home/user`) — moreover
`path.join` would normalize `./.cursor` away even for a `.` cwd — so in
the end-to-end scenario the generation succeeds and places the file, yet
no printed line contains the literal destination path `./.cursor`. -/
theorem claim_C9_counterexample :
    (generateTemplate fsScenario ["/home/user"] ["templates"] "cursor" "backend" "fastify").fs.file
        ["/home/user", ".cursor", "rules.mdc"] = some "# Fastify Rules" ∧
    (generateTemplate fsScenario ["/home/user"] ["templates"] "cursor" "backend" "fastify").output =
      ["✅ Successfully generated cursor template for fastify!",
       "📁 Files created in: /home/user/.cursor"] ∧
    (generateTemplate fsScenario ["/home/user"] ["templates"] "cursor" "backend" "fastify").output.all
      (fun line => !(strHas line "./.cursor")) = true := by
  refine ⟨by decide, by decide, by decide⟩

/-- C9 (amended): end-to-end scenario for (cursor, backend, fastify) with a
template directory containing the single file `rules.mdc`, run from the
working directory `/home/user`: afterwards the destination file
`.cursor/rules.mdc` under the working directory exists with the template's
content, and the success output includes the destination path as
`path.join(cwd, ".cursor")` renders it — the absolute `/home/user/.cursor`,
not the literal `./.cursor`. -/
theorem claim_C9 :
    (generateTemplate fsScenario ["/home/user"] ["templates"] "cursor" "backend" "fastify").fs.file
        ["/home/user", ".cursor", "rules.mdc"] = some "# Fastify Rules" ∧
    (generateTemplate fsScenario ["/home/user"] ["templates"] "cursor" "backend" "fastify").output =
      ["✅ Successfully generated cursor template for fastify!",
       "📁 Files created in: /home/user/.cursor"] ∧
    strHas "📁 Files created in: /home/user/.cursor"
      (pathToString (["/home/user"] ++ ["." ++ "cursor"])) = true := by
  refine ⟨by decide, by decide, by decide⟩

/-! ## Idempotence machinery (claim C6) -/

end AiTemplates
